import Mathlib

/-!
Shallow embedding of the offline-first sync layer of the pokemon-cards
application, covering:

* `src/lib/types.ts` — data model and row conversions,
* `src/lib/storage/localStorage.ts` — the Local Cache Store (typed slices of
  the browser key-value store),
* `src/lib/db/database.types.ts` (sync section) — the Sync Engine:
  `syncUsersFromServer`, `syncCollectionFromServer`, `addCardToCollection`,
  `updateCardInCollection`, `deleteCardFromCollection`, `syncPendingChanges`,
* `src/lib/api/pokemon-tcg.ts` — the search-query construction and the
  search cache check of `searchCards`.

Modelling conventions:

* JavaScript `string | undefined` / `string | null` fields become
  `Option String`; the idiom `x || null` / `x || undefined` (which also maps
  the empty string to null/undefined) is `jsOrNull`.
* The remote store (Supabase/Postgres) is a list of `collection_cards` rows
  plus a list of `users` rows; each network call is recorded in a request
  log so that "no network attempt" is expressible.
* Supabase-js query semantics: an awaited query builder RESOLVES with a
  `\x7b data, error \x7d` result object and does not reject, even on network
  failure; a failure is observed only by inspecting the `error` field (the
  source does so with `if (error) throw error` in every function except the
  replay loop of `syncPendingChanges`).  Remote calls here therefore return
  an `Option String` error component rather than throwing.
* Injected failures (network outages, outage of a single call) are supplied
  by an environment `RemoteEnv.netFail`; the Postgres
  `CHECK (quantity > 0)` constraint of `collection_cards`
  (supabase-schema.sql) is part of the remote model.
* `Date.now()`, `new Date().toISOString()` and `crypto.randomUUID()` are
  supplied by the environment (`now`, `nowIso`, `pendingId`, `newIds`).
-/

/-- Card condition enum (`CardCondition` in `src/lib/types.ts`). -/
inductive CardCondition
  | mint
  | nearMint
  | excellent
  | good
  | played
  | poor
deriving DecidableEq, Repr

/-- `CollectionCard` from `src/lib/types.ts` (camelCase app model). -/
structure CollectionCard where
  id : String
  userId : String
  cardId : String
  quantity : Int
  condition : CardCondition
  addedAt : String
  updatedAt : String
  notes : Option String
deriving DecidableEq, Repr

/-- `User` from `src/lib/types.ts`. -/
structure User where
  id : String
  name : String
  createdAt : String
  avatar : Option String
deriving DecidableEq, Repr

/-- `UserRow` from `src/lib/types.ts` (snake_case database row). -/
structure UserRow where
  id : String
  name : String
  created_at : String
  avatar : Option String
deriving DecidableEq, Repr

/-- `CollectionCardRow` from `src/lib/types.ts` (snake_case database row). -/
structure CollectionCardRow where
  id : String
  user_id : String
  card_id : String
  quantity : Int
  condition : CardCondition
  added_at : String
  updated_at : String
  notes : Option String
deriving DecidableEq, Repr

/-- The JavaScript idiom `x || null` (equally `x || undefined`) on an
optional string: the empty string is falsy, so it collapses to
null/undefined together with null and undefined themselves. -/
def jsOrNull : Option String → Option String
  | some s => if s = "" then none else some s
  | none => none

/-- `userRowToUser` from `src/lib/types.ts`
(`avatar: row.avatar || undefined`). -/
def userRowToUser (row : UserRow) : User :=
  { id := row.id
    name := row.name
    createdAt := row.created_at
    avatar := jsOrNull row.avatar }

/-- `collectionCardRowToCollectionCard` from `src/lib/types.ts`
(`notes: row.notes || undefined`). -/
def collectionCardRowToCollectionCard (row : CollectionCardRow) : CollectionCard :=
  { id := row.id
    userId := row.user_id
    cardId := row.card_id
    quantity := row.quantity
    condition := row.condition
    addedAt := row.added_at
    updatedAt := row.updated_at
    notes := jsOrNull row.notes }

/-- The argument of `collectionCardToRow`:
`Omit<CollectionCard, 'id' | 'addedAt' | 'updatedAt'>`. -/
structure NewCollectionCard where
  userId : String
  cardId : String
  quantity : Int
  condition : CardCondition
  notes : Option String
deriving DecidableEq, Repr

/-- The result of `collectionCardToRow`:
`Omit<CollectionCardRow, 'id' | 'added_at' | 'updated_at'>`, i.e. the body
of an insert request. -/
structure InsertRow where
  user_id : String
  card_id : String
  quantity : Int
  condition : CardCondition
  notes : Option String
deriving DecidableEq, Repr

/-- `collectionCardToRow` from `src/lib/types.ts`
(`notes: card.notes || null`). -/
def collectionCardToRow (card : NewCollectionCard) : InsertRow :=
  { user_id := card.userId
    card_id := card.cardId
    quantity := card.quantity
    condition := card.condition
    notes := jsOrNull card.notes }

/-- The slice of `PokemonCard` (`src/lib/types.ts`) that the cache-expiry
logic can observe; the remaining catalog attributes are opaque payload never
inspected by the storage or sync code. -/
structure PokemonCard where
  id : String
  name : String
deriving DecidableEq, Repr

/-- `PendingChange['type']` from `src/lib/storage/localStorage.ts`. -/
inductive ChangeType
  | add
  | update
  | delete
deriving DecidableEq, Repr

/-- `PendingChange` from `src/lib/storage/localStorage.ts`. -/
structure PendingChange where
  id : String
  type : ChangeType
  data : CollectionCard
  timestamp : Nat
deriving DecidableEq, Repr

/-- `CachedData<PokemonCard[]>` from `src/lib/storage/localStorage.ts`:
payload plus write-time `Date.now()` stamp. -/
structure CachedData where
  data : List PokemonCard
  timestamp : Int
deriving DecidableEq, Repr

/-- Association-list lookup used to model record / keyed-storage access. -/
def lookupAssoc {α : Type} (k : String) : List (String × α) → Option α
  | [] => none
  | (k2, v) :: rest => if k2 = k then some v else lookupAssoc k rest

/-- Association-list insert-or-replace used to model record assignment
(`record[key] = value`) and per-key `localStorage.setItem`. -/
def assocSet {α : Type} (k : String) (v : α) : List (String × α) → List (String × α)
  | [] => [(k, v)]
  | (k2, v2) :: rest => if k2 = k then (k, v) :: rest else (k2, v2) :: assocSet k v rest

/-- Association-list key removal, modelling `localStorage.removeItem`. -/
def assocRemove {α : Type} (k : String) : List (String × α) → List (String × α)
  | [] => []
  | (k2, v2) :: rest => if k2 = k then rest else (k2, v2) :: assocRemove k rest

/-- The typed content of the browser key-value store used by
`src/lib/storage/localStorage.ts`.  `none` models an absent key
(`getItem` returned null).  The search cache is keyed by
`pokemon-cards:search:<query.toLowerCase()>`. -/
structure LocalStore where
  users : Option (List User)
  collections : Option (List (String × List CollectionCard))
  pendingChanges : Option (List PendingChange)
  searchCache : List (String × CachedData)
  lastSync : Option Nat
deriving DecidableEq, Repr

/-- `getCachedUsers` (`localStorage.ts`): `getItem(KEYS.USERS)`. -/
def getCachedUsers (st : LocalStore) : Option (List User) :=
  st.users

/-- `setCachedUsers` (`localStorage.ts`). -/
def setCachedUsers (st : LocalStore) (users : List User) : LocalStore :=
  { st with users := some users }

/-- `getCachedCollection` (`localStorage.ts`):
`allCollections?.[userId] || null`.  Note a present empty list is truthy in
JavaScript and is returned as-is; only an absent key yields null. -/
def getCachedCollection (st : LocalStore) (userId : String) : Option (List CollectionCard) :=
  match st.collections with
  | none => none
  | some m => lookupAssoc userId m

/-- `setCachedCollection` (`localStorage.ts`): read the whole record (or
`\x7b\x7d`), assign the one key, write it back. -/
def setCachedCollection (st : LocalStore) (userId : String) (cards : List CollectionCard) :
    LocalStore :=
  { st with collections := some (assocSet userId cards (st.collections.getD [])) }

/-- `getPendingChanges` (`localStorage.ts`): `getItem(...) || []`. -/
def getPendingChanges (st : LocalStore) : List PendingChange :=
  st.pendingChanges.getD []

/-- `addPendingChange` (`localStorage.ts`): append the change stamped with a
fresh uuid and `Date.now()`. -/
def addPendingChange (st : LocalStore) (ty : ChangeType) (data : CollectionCard)
    (newId : String) (now : Nat) : LocalStore :=
  let entry : PendingChange := { id := newId, type := ty, data := data, timestamp := now }
  { st with pendingChanges := some (getPendingChanges st ++ [entry]) }

/-- `clearPendingChanges` (`localStorage.ts`): `removeItem` of the queue key,
after which `getPendingChanges` reads the empty list again. -/
def clearPendingChanges (st : LocalStore) : LocalStore :=
  { st with pendingChanges := none }

/-- `setLastSyncTime` (`localStorage.ts`). -/
def setLastSyncTime (st : LocalStore) (timestamp : Nat) : LocalStore :=
  { st with lastSync := some timestamp }

/-- `CACHE_DURATION.SEARCH` (`localStorage.ts`): 24 hours in milliseconds. -/
def cacheDurationSearch : Int := 24 * 60 * 60 * 1000

/-- `CACHE_DURATION.CARD` (`localStorage.ts`): 7 days in milliseconds. -/
def cacheDurationCard : Int := 7 * 24 * 60 * 60 * 1000

/-- `isCacheValid` (`localStorage.ts`): `Date.now() - timestamp < duration`. -/
def isCacheValid (now timestamp duration : Int) : Bool :=
  now - timestamp < duration

/-- `query.toLowerCase()`, as a character-wise map (the queries involved are
ASCII). -/
def jsToLower (query : String) : String :=
  String.mk (query.data.map Char.toLower)

/-- The storage key of a cached search:
`KEYS.SEARCH_CACHE + ':' + query.toLowerCase()`. -/
def searchCacheKey (query : String) : String :=
  "pokemon-cards:search:" ++ jsToLower query

/-- `getCachedSearch` (`localStorage.ts`): absent key gives null; a valid
entry returns its payload; an expired entry is removed from storage and null
is returned.  `now` stands for `Date.now()` at lookup time. -/
def getCachedSearch (st : LocalStore) (query : String) (now : Int) :
    Option (List PokemonCard) × LocalStore :=
  match lookupAssoc (searchCacheKey query) st.searchCache with
  | none => (none, st)
  | some cached =>
    if isCacheValid now cached.timestamp cacheDurationSearch then
      (some cached.data, st)
    else
      (none, { st with searchCache := assocRemove (searchCacheKey query) st.searchCache })

/-- `setCachedSearch` (`localStorage.ts`): store payload stamped with the
current time under the normalized key. -/
def setCachedSearch (st : LocalStore) (query : String) (results : List PokemonCard)
    (now : Int) : LocalStore :=
  let entry : CachedData := { data := results, timestamp := now }
  { st with searchCache := assocSet (searchCacheKey query) entry st.searchCache }

/-- The body of a `collection_cards` update request, as built by
`updateCardInCollection` / `syncPendingChanges`:
`\x7b quantity, condition, notes: x || null \x7d`.  For `quantity` and
`condition` a `none` models the JavaScript `undefined`, which JSON
serialization drops, leaving the column unchanged; for `notes` a `none`
models an explicit SQL `null` (the source writes `updates.notes || null`,
which never produces `undefined`), which sets the column to NULL. -/
structure UpdateRow where
  quantity : Option Int
  condition : Option CardCondition
  notes : Option String
deriving DecidableEq, Repr

/-- One network request issued against the remote store (Supabase) or a
record that a select was issued; the Sync Engine logs every request so the
theorems can speak about what did (and did not) reach the network. -/
inductive RemoteRequest
  | insert (row : InsertRow)
  | update (u : UpdateRow) (id : String)
  | delete (id : String)
  | selectUsers
  | selectCollection (userId : String)
deriving DecidableEq, Repr

/-- The remote relational store (Supabase project): the two tables of
`supabase-schema.sql`. -/
structure RemoteStore where
  users : List UserRow
  collection_cards : List CollectionCardRow
deriving DecidableEq, Repr

/-- Environment of a remote interaction: injected transport failures
(supabase-js surfaces them as an `error` field on the resolved result, never
as a rejected promise), server-assigned uuids for inserted rows, and the
server clock used for default/auto-updated timestamp columns. -/
structure RemoteEnv where
  netFail : RemoteRequest → Option String
  newIds : InsertRow → String
  serverNow : String

/-- Postgres semantics of applying an update body to one matched row:
absent (`undefined`, dropped) fields keep the column, the explicit
`notes` value (possibly SQL null) is always written, and `updated_at` is
auto-updated by the schema trigger. -/
def applyUpdateRow (u : UpdateRow) (serverNow : String) (row : CollectionCardRow) :
    CollectionCardRow :=
  { row with
      quantity := u.quantity.getD row.quantity
      condition := u.condition.getD row.condition
      notes := u.notes
      updated_at := serverNow }

/-- The `collection_cards` row created by a successful insert: server uuid,
server timestamps, request body for the rest (`supabase-schema.sql`). -/
def mkInsertedRow (row : InsertRow) (newId serverNow : String) : CollectionCardRow :=
  { id := newId
    user_id := row.user_id
    card_id := row.card_id
    quantity := row.quantity
    condition := row.condition
    added_at := serverNow
    updated_at := serverNow
    notes := row.notes }

/-- Execute one request against the remote store.  Result components:
the `error` field of the resolved supabase result (`none` on success), the
`collection_cards` rows the request returns (insert with `.select()` returns
the created row; update returns the matched updated rows; delete and the
selects return their data through other channels), and the store after the
request.  A transport failure (from `netFail`) and a violation of the
schema's `CHECK (quantity > 0)` both come back through the `error` field,
which is exactly how supabase-js reports them. -/
def remoteExec (env : RemoteEnv) (r : RemoteStore) :
    RemoteRequest → Option String × List CollectionCardRow × RemoteStore
  | RemoteRequest.insert row =>
    match env.netFail (RemoteRequest.insert row) with
    | some e => (some e, [], r)
    | none =>
      if row.quantity ≤ 0 then
        (some "new row for relation collection_cards violates check constraint", [], r)
      else
        let newRow := mkInsertedRow row (env.newIds row) env.serverNow
        (none, [newRow], { r with collection_cards := r.collection_cards ++ [newRow] })
  | RemoteRequest.update u id =>
    match env.netFail (RemoteRequest.update u id) with
    | some e => (some e, [], r)
    | none =>
      let matched := r.collection_cards.filter (fun row => row.id = id)
      if matched.any (fun row => (applyUpdateRow u env.serverNow row).quantity ≤ 0) then
        (some "new row for relation collection_cards violates check constraint", [], r)
      else
        let updatedTable :=
          r.collection_cards.map
            (fun row => if row.id = id then applyUpdateRow u env.serverNow row else row)
        (none, matched.map (applyUpdateRow u env.serverNow),
         { r with collection_cards := updatedTable })
  | RemoteRequest.delete id =>
    match env.netFail (RemoteRequest.delete id) with
    | some e => (some e, [], r)
    | none =>
      let remaining := r.collection_cards.filter (fun row => row.id ≠ id)
      (none, [], { r with collection_cards := remaining })
  | RemoteRequest.selectUsers => (env.netFail RemoteRequest.selectUsers, [], r)
  | RemoteRequest.selectCollection userId =>
    match env.netFail (RemoteRequest.selectCollection userId) with
    | some e => (some e, [], r)
    | none => (none, r.collection_cards.filter (fun row => row.user_id = userId), r)

/-- Insertion into a list sorted by the boolean order `le`. -/
def insertSorted {α : Type} (le : α → α → Bool) (x : α) : List α → List α
  | [] => [x]
  | y :: ys => if le x y then x :: y :: ys else y :: insertSorted le x ys

/-- Simple insertion sort, used to model the `order(...)` clauses of the two
select queries. -/
def sortByBool {α : Type} (le : α → α → Bool) : List α → List α
  | [] => []
  | x :: xs => insertSorted le x (sortByBool le xs)

/-- The `users` select of `syncUsersFromServer`:
`select('*').order('created_at', \x7b ascending: true \x7d)`. -/
def remoteSelectUsers (env : RemoteEnv) (r : RemoteStore) : Option String × List UserRow :=
  match env.netFail RemoteRequest.selectUsers with
  | some e => (some e, [])
  | none => (none, sortByBool (fun a b => a.created_at ≤ b.created_at) r.users)

/-- The `collection_cards` select of `syncCollectionFromServer`:
`select('*').eq('user_id', userId).order('added_at', \x7b ascending: false \x7d)`. -/
def remoteSelectCollection (env : RemoteEnv) (r : RemoteStore) (userId : String) :
    Option String × List CollectionCardRow :=
  match env.netFail (RemoteRequest.selectCollection userId) with
  | some e => (some e, [])
  | none =>
    (none, sortByBool (fun a b => b.added_at ≤ a.added_at)
      (r.collection_cards.filter (fun row => row.user_id = userId)))

/-- The `.single()` modifier on a supabase result followed by the caller's
`if (error) throw error`: an error result throws, a data payload of exactly
one row is returned, anything else is a `.single()` error. -/
def singleRow (err : Option String) (rows : List CollectionCardRow) :
    Except String CollectionCardRow :=
  match err with
  | some e => Except.error e
  | none =>
    match rows with
    | [row] => Except.ok row
    | _ => Except.error "JSON object requested, multiple (or no) rows returned"

/-- `SyncStatus` from `src/lib/db` sync module. -/
inductive SyncStatus
  | idle
  | syncing
  | error
  | offline
deriving DecidableEq, Repr

/-- The observable state a Sync Engine operation acts on: the Local Cache
Store, the remote store, the log of network requests issued so far, and the
module-level sync status. -/
structure SyncState where
  localStore : LocalStore
  remoteStore : RemoteStore
  log : List RemoteRequest
  status : SyncStatus
deriving DecidableEq, Repr

/-- Environment of one Sync Engine call: `navigator.onLine`, `Date.now()`
(`now`), `new Date().toISOString()` (`nowIso`), the `crypto.randomUUID()`
value a queued pending change would receive (`pendingId`), and the remote
side's behavior. -/
structure SyncEnv where
  online : Bool
  now : Nat
  nowIso : String
  pendingId : String
  remoteEnv : RemoteEnv

/-- Replace the first element satisfying `p` by its image under `f`,
returning the image and the new list, or `none` when no element matches.
This is the functional reading of the source's
`findIndex` + `cached[cardIndex] = ...` pair: both touch exactly the first
matching position. -/
def updateFirst {α : Type} (p : α → Bool) (f : α → α) : List α → Option (α × List α)
  | [] => none
  | x :: xs =>
    if p x then some (f x, f x :: xs)
    else
      match updateFirst p f xs with
      | none => none
      | some (y, ys) => some (y, x :: ys)

/-- `syncUsersFromServer` (`database.types.ts` lines 119-144): offline falls
back to the cached users (an existing empty list is truthy and is returned)
or throws; online selects, caches and returns the fresh list, and on a
select error falls back to the cache before rethrowing. -/
def syncUsersFromServer (env : SyncEnv) (s : SyncState) :
    Except String (List User) × SyncState :=
  if !env.online then
    match getCachedUsers s.localStore with
    | some cached => (Except.ok cached, s)
    | none => (Except.error "Offline and no cached users available", s)
  else
    let (err, rows) := remoteSelectUsers env.remoteEnv s.remoteStore
    let s2 := { s with log := s.log ++ [RemoteRequest.selectUsers] }
    match err with
    | none =>
      let users := rows.map userRowToUser
      (Except.ok users, { s2 with localStore := setCachedUsers s2.localStore users })
    | some e =>
      match getCachedUsers s.localStore with
      | some cached => (Except.ok cached, s2)
      | none => (Except.error e, s2)

/-- `syncCollectionFromServer` (`database.types.ts` lines 188-215): same
cache-first/offline-fallback shape as `syncUsersFromServer`, for one user's
collection, additionally stamping the last-sync time on success. -/
def syncCollectionFromServer (env : SyncEnv) (s : SyncState) (userId : String) :
    Except String (List CollectionCard) × SyncState :=
  if !env.online then
    match getCachedCollection s.localStore userId with
    | some cached => (Except.ok cached, s)
    | none => (Except.error "Offline and no cached collection available", s)
  else
    let (err, rows) := remoteSelectCollection env.remoteEnv s.remoteStore userId
    let s2 := { s with log := s.log ++ [RemoteRequest.selectCollection userId] }
    match err with
    | none =>
      let cards := rows.map collectionCardRowToCollectionCard
      let ls := setLastSyncTime (setCachedCollection s2.localStore userId cards) env.now
      (Except.ok cards, { s2 with localStore := ls })
    | some e =>
      match getCachedCollection s.localStore userId with
      | some cached => (Except.ok cached, s2)
      | none => (Except.error e, s2)

/-- The optimistic temp card built by `addCardToCollection`:
`id: temp-<Date.now()>`, both timestamps `new Date().toISOString()`. -/
def mkTempCard (env : SyncEnv) (userId cardId : String) (quantity : Int)
    (condition : CardCondition) (notes : Option String) : CollectionCard :=
  { id := "temp-" ++ toString env.now
    userId := userId
    cardId := cardId
    quantity := quantity
    condition := condition
    addedAt := env.nowIso
    updatedAt := env.nowIso
    notes := notes }

/-- `addCardToCollection` (`database.types.ts` lines 220-277): unshift an
optimistic temp card into the cached collection unconditionally; offline,
queue an add and return the temp card; online, insert, and on success
replace the temp card in the cache by the server row, on failure keep the
optimistic cache, queue the add and rethrow. -/
def addCardToCollection (env : SyncEnv) (s : SyncState) (userId cardId : String)
    (quantity : Int) (condition : CardCondition) (notes : Option String) :
    Except String CollectionCard × SyncState :=
  let newCard : NewCollectionCard :=
    { userId := userId, cardId := cardId, quantity := quantity,
      condition := condition, notes := notes }
  let tempCard := mkTempCard env userId cardId quantity condition notes
  let cached := tempCard :: (getCachedCollection s.localStore userId).getD []
  let ls := setCachedCollection s.localStore userId cached
  if !env.online then
    (Except.ok tempCard,
     { s with localStore := addPendingChange ls ChangeType.add tempCard env.pendingId env.now })
  else
    let rowData := collectionCardToRow newCard
    let req := RemoteRequest.insert rowData
    let (err, rows, remote2) := remoteExec env.remoteEnv s.remoteStore req
    let s2 := { s with localStore := ls, remoteStore := remote2, log := s.log ++ [req] }
    match singleRow err rows with
    | Except.ok row =>
      let card := collectionCardRowToCollectionCard row
      let updatedCache := cached.map (fun c => if c.id = tempCard.id then card else c)
      (Except.ok card, { s2 with localStore := setCachedCollection ls userId updatedCache })
    | Except.error e =>
      (Except.error e,
       { s2 with localStore := addPendingChange ls ChangeType.add tempCard env.pendingId env.now })

/-- `Partial<Pick<CollectionCard, 'quantity' | 'condition' | 'notes'>>`,
the `updates` argument of `updateCardInCollection`; `none` is an absent
field. -/
structure CardUpdates where
  quantity : Option Int
  condition : Option CardCondition
  notes : Option String
deriving DecidableEq, Repr

/-- The object spread `\x7b ...cached[cardIndex], ...updates \x7d`: present
update fields override the cached card. -/
def applyUpdates (c : CollectionCard) (u : CardUpdates) : CollectionCard :=
  { c with
      quantity := u.quantity.getD c.quantity
      condition := u.condition.getD c.condition
      notes := match u.notes with | some s => some s | none => c.notes }

/-- The update request body built by `updateCardInCollection`:
`\x7b quantity: updates.quantity, condition: updates.condition,
notes: updates.notes || null \x7d`. -/
def updateDataOf (u : CardUpdates) : UpdateRow :=
  { quantity := u.quantity
    condition := u.condition
    notes := jsOrNull u.notes }

/-- `updateCardInCollection` (`database.types.ts` lines 282-332): throw if
the card is not in the cached collection; write the spread-updated card into
the cache; offline, queue an update and return it; online, send the update
body, and on success overwrite the cache slot with the server row, on
failure queue the update and rethrow.  The two in-place writes to
`cached[cardIndex]` are modelled with `updateFirst` on the card id, which is
the same position because `updates` cannot change the `id` field. -/
def updateCardInCollection (env : SyncEnv) (s : SyncState) (userId cardId : String)
    (updates : CardUpdates) : Except String CollectionCard × SyncState :=
  let cached := (getCachedCollection s.localStore userId).getD []
  match updateFirst (fun c => c.id = cardId) (fun c => applyUpdates c updates) cached with
  | none => (Except.error "Card not found in collection", s)
  | some (updatedCard, cached2) =>
    let ls := setCachedCollection s.localStore userId cached2
    if !env.online then
      (Except.ok updatedCard,
       { s with localStore :=
           addPendingChange ls ChangeType.update updatedCard env.pendingId env.now })
    else
      let req := RemoteRequest.update (updateDataOf updates) cardId
      let (err, rows, remote2) := remoteExec env.remoteEnv s.remoteStore req
      let s2 := { s with localStore := ls, remoteStore := remote2, log := s.log ++ [req] }
      match singleRow err rows with
      | Except.ok row =>
        let card := collectionCardRowToCollectionCard row
        match updateFirst (fun c => c.id = cardId) (fun _ => card) cached2 with
        | some (_, cached3) =>
          (Except.ok card, { s2 with localStore := setCachedCollection ls userId cached3 })
        | none => (Except.ok card, s2)
      | Except.error e =>
        (Except.error e,
         { s2 with localStore :=
             addPendingChange ls ChangeType.update updatedCard env.pendingId env.now })

/-- `deleteCardFromCollection` (`database.types.ts` lines 337-371): filter
the card out of the cache unconditionally; offline, queue a delete (when the
card was present) and return; online, send the delete, and on failure push
the removed card onto the ORIGINAL (unfiltered) `cached` array, write that
back, queue a delete and rethrow.  The push onto the unfiltered array is the
source's own `cached.push(cardToDelete)`. -/
def deleteCardFromCollection (env : SyncEnv) (s : SyncState) (userId cardId : String) :
    Except String Unit × SyncState :=
  let cached := (getCachedCollection s.localStore userId).getD []
  let cardToDelete := cached.find? (fun c => c.id = cardId)
  let filteredCache := cached.filter (fun c => c.id ≠ cardId)
  let ls := setCachedCollection s.localStore userId filteredCache
  if !env.online then
    match cardToDelete with
    | some card =>
      (Except.ok (),
       { s with localStore := addPendingChange ls ChangeType.delete card env.pendingId env.now })
    | none => (Except.ok (), { s with localStore := ls })
  else
    let req := RemoteRequest.delete cardId
    let (err, _, remote2) := remoteExec env.remoteEnv s.remoteStore req
    let s2 := { s with localStore := ls, remoteStore := remote2, log := s.log ++ [req] }
    match err with
    | none => (Except.ok (), s2)
    | some e =>
      match cardToDelete with
      | some card =>
        let ls2 := setCachedCollection ls userId (cached ++ [card])
        (Except.error e,
         { s2 with localStore :=
             addPendingChange ls2 ChangeType.delete card env.pendingId env.now })
      | none => (Except.error e, s2)

/-- The request `syncPendingChanges` re-issues for one queued change
(`database.types.ts` lines 390-419): add inserts `collectionCardToRow` of
the stored card (the temporary id is not part of the insert body), update
sends the stored quantity/condition/notes keyed by the stored id, delete
deletes by the stored id. -/
def requestOfChange (change : PendingChange) : RemoteRequest :=
  match change.type with
  | ChangeType.add =>
    RemoteRequest.insert (collectionCardToRow
      { userId := change.data.userId
        cardId := change.data.cardId
        quantity := change.data.quantity
        condition := change.data.condition
        notes := change.data.notes })
  | ChangeType.update =>
    RemoteRequest.update
      { quantity := some change.data.quantity
        condition := some change.data.condition
        notes := jsOrNull change.data.notes }
      change.data.id
  | ChangeType.delete => RemoteRequest.delete change.data.id

/-- The `for (const change of pending)` loop of `syncPendingChanges`: each
queued change is re-issued in insertion order.  The loop awaits each
supabase call but DOES NOT read its `error` field (in contrast to every
other function in the file), and an awaited supabase query resolves — it
does not reject — even on transport failure, so no iteration can throw and
the result of every call is discarded. -/
def replayAll (env : RemoteEnv) : RemoteStore → List PendingChange →
    RemoteStore × List RemoteRequest
  | r, [] => (r, [])
  | r, c :: cs =>
    let req := requestOfChange c
    let (_, _, r2) := remoteExec env r req
    let (r3, reqs) := replayAll env r2 cs
    (r3, req :: reqs)

/-- `syncPendingChanges` (`database.types.ts` lines 376-429): offline sets
status to offline and returns; an empty queue returns; otherwise status goes
to syncing, every queued change is re-issued in order, the queue is cleared
and status returns to idle.  Because the loop body never inspects the
supabase `error` results and awaited supabase queries never reject, the
`catch` branch (status error, rethrow) is unreachable from an operation
failure and the queue is cleared unconditionally at the end of the pass. -/
def syncPendingChanges (env : SyncEnv) (s : SyncState) : Except String Unit × SyncState :=
  if !env.online then
    (Except.ok (), { s with status := SyncStatus.offline })
  else
    let pending := getPendingChanges s.localStore
    if pending.length = 0 then
      (Except.ok (), s)
    else
      let (remote2, reqs) := replayAll env.remoteEnv s.remoteStore pending
      (Except.ok (),
       { s with
           localStore := clearPendingChanges s.localStore
           remoteStore := remote2
           log := s.log ++ reqs
           status := SyncStatus.idle })

/-- `API_BASE_URL` from `src/lib/api/pokemon-tcg.ts`. -/
def apiBaseUrl : String := "https://api.pokemontcg.io/v2"

/-- `query.includes(' ')` of `searchCards`: a single-character substring
test is membership of that character among the characters of the query. -/
def containsSpace (query : String) : Bool :=
  query.data.any (fun c => c = ' ')

/-- The catalog query expression built by `searchCards`
(`pokemon-tcg.ts` lines 53-56): a query containing a space is quoted and
wildcarded on both ends, a single-word query is wildcarded without
quotes. -/
def buildSearchQuery (query : String) : String :=
  if containsSpace query then
    "name:\"*" ++ query ++ "*\""
  else
    "name:*" ++ query ++ "*"

/-- The request URL built by `searchCards` (`pokemon-tcg.ts` line 57),
up to the percent-encoding of the query parameter (`encodeURIComponent` is
pure transport encoding and is left out of the model):
`<base>/cards?q=<query-expr>&pageSize=50`. -/
def searchUrl (query : String) : String :=
  apiBaseUrl ++ "/cards?q=" ++ buildSearchQuery query ++ "&pageSize=50"

/-- The outcome of the cache check at the head of `searchCards`: either the
cached result set is returned without touching the network, or a network
fetch of `searchUrl` is performed. -/
inductive SearchAction
  | fromCache (results : List PokemonCard)
  | networkFetch (url : String)
deriving DecidableEq, Repr

/-- The cache-first dispatch of `searchCards` (`pokemon-tcg.ts` lines
42-57): a valid cached entry is returned as-is; otherwise (no entry, or an
expired entry, which the lookup also removes) the request URL is built and
fetched. -/
def searchCardsAction (st : LocalStore) (query : String) (now : Int) :
    SearchAction × LocalStore :=
  match getCachedSearch st query now with
  | (some cached, st2) => (SearchAction.fromCache cached, st2)
  | (none, st2) => (SearchAction.networkFetch (searchUrl query), st2)

/-! ### Concrete fixtures for witnesses and counterexamples -/

/-- A remote side on which every request succeeds. -/
def remoteEnvOk : RemoteEnv :=
  { netFail := fun _ => none
    newIds := fun _ => "srv-1"
    serverNow := "2024-01-02T00:00:00Z" }

/-- A remote side on which every request fails at the transport layer. -/
def remoteEnvDown : RemoteEnv :=
  { remoteEnvOk with netFail := fun _ => some "Failed to fetch" }

/-- A remote side on which exactly the insert requests fail. -/
def remoteEnvInsertDown : RemoteEnv :=
  { remoteEnvOk with
      netFail := fun req =>
        match req with
        | RemoteRequest.insert _ => some "Failed to fetch"
        | _ => none }

/-- A fully-working online environment. -/
def envOnlineOk : SyncEnv :=
  { online := true
    now := 100
    nowIso := "2024-01-01T00:00:00Z"
    pendingId := "pend-1"
    remoteEnv := remoteEnvOk }

/-- Online, but every remote request fails. -/
def envOnlineDown : SyncEnv :=
  { envOnlineOk with remoteEnv := remoteEnvDown }

/-- Online, but insert requests fail. -/
def envOnlineInsertDown : SyncEnv :=
  { envOnlineOk with remoteEnv := remoteEnvInsertDown }

/-- The browser reports offline. -/
def envOffline : SyncEnv :=
  { envOnlineOk with online := false }

def cardA : CollectionCard :=
  { id := "c-1", userId := "p1", cardId := "base1-4", quantity := 1,
    condition := CardCondition.nearMint, addedAt := "d1", updatedAt := "d1", notes := none }

def cardB : CollectionCard :=
  { id := "c-2", userId := "p1", cardId := "base1-10", quantity := 2,
    condition := CardCondition.good, addedAt := "d1", updatedAt := "d1", notes := some "shiny" }

/-- A card cached under a temporary locally-generated id. -/
def tempCard100 : CollectionCard :=
  { id := "temp-100", userId := "p1", cardId := "base1-4", quantity := 1,
    condition := CardCondition.nearMint, addedAt := "d0", updatedAt := "d0", notes := none }

def emptyLocalStore : LocalStore :=
  { users := none, collections := none, pendingChanges := none,
    searchCache := [], lastSync := none }

def emptyRemote : RemoteStore := { users := [], collection_cards := [] }

/-- Empty device, empty remote, online log empty, status idle. -/
def state0 : SyncState :=
  { localStore := emptyLocalStore, remoteStore := emptyRemote, log := [], status := SyncStatus.idle }

/-- Device caching the collection `[cardA, cardB]` for profile p1. -/
def stateAB : SyncState :=
  { state0 with localStore :=
      { emptyLocalStore with collections := some [("p1", [cardA, cardB])] } }

/-- A catalog card used in the search-cache fixtures. -/
def pika : PokemonCard := { id := "xy1-1", name := "Pikachu" }

/-- A device store holding one search-cache entry for "pikachu" written at
time 0. -/
def staleSearchStore : LocalStore :=
  { emptyLocalStore with
      searchCache := [(searchCacheKey "pikachu", { data := [pika], timestamp := 0 })] }

/-- A pending add operation queued for the temp card. -/
def pendingAdd : PendingChange :=
  { id := "pend-a", type := ChangeType.add, data := tempCard100, timestamp := 50 }

/-- A remote row that a queued delete targets. -/
def rowC9 : CollectionCardRow :=
  { id := "c-9", user_id := "p1", card_id := "base1-99", quantity := 1,
    condition := CardCondition.good, added_at := "d1", updated_at := "d1", notes := none }

/-- The cached card corresponding to `rowC9`. -/
def cardC9 : CollectionCard :=
  { id := "c-9", userId := "p1", cardId := "base1-99", quantity := 1,
    condition := CardCondition.good, addedAt := "d1", updatedAt := "d1", notes := none }

/-- A pending delete operation for `rowC9`. -/
def pendingDeleteC9 : PendingChange :=
  { id := "pend-b", type := ChangeType.delete, data := cardC9, timestamp := 60 }

/-- Device with a two-operation queue (a create, then a delete), the temp
card cached for p1, and the remote containing only `rowC9`. -/
def stateQueue2 : SyncState :=
  { localStore := { emptyLocalStore with
      pendingChanges := some [pendingAdd, pendingDeleteC9]
      collections := some [("p1", [tempCard100])] }
    remoteStore := { users := [], collection_cards := [rowC9] }
    log := []
    status := SyncStatus.idle }

/-- Device with a single queued create for the temp card, which is also the
cached collection entry for p1; remote is empty. -/
def pendingAddOnly : SyncState :=
  { localStore := { emptyLocalStore with
      pendingChanges := some [pendingAdd]
      collections := some [("p1", [tempCard100])] }
    remoteStore := emptyRemote
    log := []
    status := SyncStatus.idle }

/-- The insert body of an add call with quantity 0. -/
def insertRowQ0 : InsertRow :=
  { user_id := "p1", card_id := "base1-4", quantity := 0,
    condition := CardCondition.nearMint, notes := none }

/-! ### Helper lemmas about the storage model -/

theorem lookupAssoc_assocSet_self {α : Type} (k : String) (v : α) (m : List (String × α)) :
    lookupAssoc k (assocSet k v m) = some v := by
  induction m with
  | nil => simp [assocSet, lookupAssoc]
  | cons hd tl ih =>
    obtain ⟨k2, v2⟩ := hd
    by_cases h : k2 = k
    · simp [assocSet, lookupAssoc, h]
    · simp [assocSet, lookupAssoc, h, ih]

theorem lookupAssoc_eq_none {α : Type} (k : String) (m : List (String × α))
    (h : k ∉ m.map Prod.fst) : lookupAssoc k m = none := by
  induction m with
  | nil => rfl
  | cons hd tl ih =>
    obtain ⟨k2, v2⟩ := hd
    simp only [List.map_cons, List.mem_cons] at h
    push_neg at h
    have hne : k2 ≠ k := fun hh => h.1 hh.symm
    simp [lookupAssoc, hne, ih h.2]

theorem lookupAssoc_assocRemove_self {α : Type} (k : String) (m : List (String × α))
    (h : (m.map Prod.fst).Nodup) : lookupAssoc k (assocRemove k m) = none := by
  induction m with
  | nil => rfl
  | cons hd tl ih =>
    obtain ⟨k2, v2⟩ := hd
    simp only [List.map_cons, List.nodup_cons] at h
    by_cases hk : k2 = k
    · subst hk
      simpa [assocRemove] using lookupAssoc_eq_none k2 tl h.1
    · simp [assocRemove, hk, lookupAssoc, ih h.2]

theorem getCachedCollection_set_self (st : LocalStore) (userId : String)
    (cards : List CollectionCard) :
    getCachedCollection (setCachedCollection st userId cards) userId = some cards := by
  simp [getCachedCollection, setCachedCollection, lookupAssoc_assocSet_self]

theorem getPendingChanges_addPendingChange (st : LocalStore) (ty : ChangeType)
    (data : CollectionCard) (newId : String) (now : Nat) :
    getPendingChanges (addPendingChange st ty data newId now) =
      getPendingChanges st ++ [{ id := newId, type := ty, data := data, timestamp := now }] := by
  simp [getPendingChanges, addPendingChange]

theorem updateFirst_mem {α : Type} (p : α → Bool) (f : α → α) :
    ∀ (l : List α) (y : α) (ys : List α), updateFirst p f l = some (y, ys) → y ∈ ys := by
  intro l
  induction l with
  | nil =>
    intro y ys h
    simp [updateFirst] at h
  | cons x xs ih =>
    intro y ys h
    by_cases hp : p x
    · simp [updateFirst, hp] at h
      obtain ⟨h1, h2⟩ := h
      subst h1
      subst h2
      exact List.mem_cons_self _ _
    · rcases hrec : updateFirst p f xs with _ | pr
      · simp [updateFirst, hp, hrec] at h
      · obtain ⟨y2, ys2⟩ := pr
        simp [updateFirst, hp, hrec] at h
        obtain ⟨h1, h2⟩ := h
        subst h1
        subst h2
        exact List.mem_cons_of_mem _ (ih _ _ hrec)

/-! ### Claims -/

/-- Claim C8: for every search query, `searchCards` builds the catalog query
expression `name:"*<query>*"` (quoted, wildcarded on both ends) when the
query contains a space and `name:*<query>*` when it does not, and issues the
request with `pageSize=50`; in particular "pikachu ex" yields
`name:"*pikachu ex*"` and "pikachu" yields `name:*pikachu*`. -/
theorem searchCards_query_expression :
    (∀ q : String, containsSpace q = true →
      buildSearchQuery q = "name:\"*" ++ q ++ "*\"") ∧
    (∀ q : String, containsSpace q = false →
      buildSearchQuery q = "name:*" ++ q ++ "*") ∧
    (∀ q : String, searchUrl q =
      apiBaseUrl ++ "/cards?q=" ++ buildSearchQuery q ++ "&pageSize=50") ∧
    buildSearchQuery "pikachu ex" = "name:\"*pikachu ex*\"" ∧
    buildSearchQuery "pikachu" = "name:*pikachu*" := by
  refine ⟨?_, ?_, ?_, ?_, ?_⟩
  · intro q h
    simp [buildSearchQuery, h]
  · intro q h
    simp [buildSearchQuery, h]
  · intro q
    rfl
  · decide
  · decide

/-- Witness for C8 at the concrete query "pikachu ex". -/
theorem searchCards_query_expression_witness :
    buildSearchQuery "pikachu ex" = "name:\"*pikachu ex*\"" :=
  searchCards_query_expression.1 "pikachu ex" (by decide)

/-- Claim C9: a cached search result whose stored fetch timestamp is older
than the search-cache lifetime at lookup time is treated as absent:
`getCachedSearch` returns null and removes the stale entry from storage, and
the next `searchCards` call for that query takes the network-fetch path. -/
theorem getCachedSearch_expired_treated_absent (st : LocalStore) (query : String)
    (now : Int) (entry : CachedData)
    (hfound : lookupAssoc (searchCacheKey query) st.searchCache = some entry)
    (hold : cacheDurationSearch < now - entry.timestamp)
    (hnodup : (st.searchCache.map Prod.fst).Nodup) :
    getCachedSearch st query now =
      (none, { st with searchCache := assocRemove (searchCacheKey query) st.searchCache }) ∧
    (∀ now2 : Int,
      searchCardsAction (getCachedSearch st query now).2 query now2 =
        (SearchAction.networkFetch (searchUrl query), (getCachedSearch st query now).2)) := by
  have hcond : isCacheValid now entry.timestamp cacheDurationSearch = false := by
    simp only [isCacheValid, decide_eq_false_iff_not, not_lt]
    omega
  have h1 : getCachedSearch st query now =
      (none, { st with searchCache := assocRemove (searchCacheKey query) st.searchCache }) := by
    simp [getCachedSearch, hfound, hcond]
  refine ⟨h1, ?_⟩
  intro now2
  have h2 : lookupAssoc (searchCacheKey query)
      (assocRemove (searchCacheKey query) st.searchCache) = none :=
    lookupAssoc_assocRemove_self _ _ hnodup
  rw [h1]
  simp [searchCardsAction, getCachedSearch, h2]

/-- Witness for C9: the "pikachu" entry written at time 0 is expired one
millisecond after the 24-hour lifetime and is dropped from storage. -/
theorem getCachedSearch_expired_treated_absent_witness :
    getCachedSearch staleSearchStore "pikachu" 86400001 =
      (none, { staleSearchStore with
        searchCache := assocRemove (searchCacheKey "pikachu") staleSearchStore.searchCache }) :=
  (getCachedSearch_expired_treated_absent staleSearchStore "pikachu" 86400001
    { data := [pika], timestamp := 0 } (by decide) (by decide) (by decide)).1

/-- Claim C6: every "sync from server" read (`syncUsersFromServer`, or
`syncCollectionFromServer` for any profile) called while offline returns
exactly the cached value when a cache exists, with no network attempt (the
whole state, including the request log, is untouched), and throws when no
cache exists at all. -/
theorem syncFromServer_offline_cache_first (env : SyncEnv) (s : SyncState)
    (hoff : env.online = false) :
    (∀ cached, getCachedUsers s.localStore = some cached →
      syncUsersFromServer env s = (Except.ok cached, s)) ∧
    (getCachedUsers s.localStore = none →
      syncUsersFromServer env s =
        (Except.error "Offline and no cached users available", s)) ∧
    (∀ userId cached, getCachedCollection s.localStore userId = some cached →
      syncCollectionFromServer env s userId = (Except.ok cached, s)) ∧
    (∀ userId, getCachedCollection s.localStore userId = none →
      syncCollectionFromServer env s userId =
        (Except.error "Offline and no cached collection available", s)) := by
  refine ⟨?_, ?_, ?_, ?_⟩
  · intro cached hc
    simp [syncUsersFromServer, hoff, hc]
  · intro hc
    simp [syncUsersFromServer, hoff, hc]
  · intro userId cached hc
    simp [syncCollectionFromServer, hoff, hc]
  · intro userId hc
    simp [syncCollectionFromServer, hoff, hc]

/-- Witness for C6: on a device caching `[cardA, cardB]` for p1 and no user
list, the offline collection read returns the cache unchanged and the
offline users read throws. -/
theorem syncFromServer_offline_cache_first_witness :
    syncCollectionFromServer envOffline stateAB "p1" = (Except.ok [cardA, cardB], stateAB) ∧
    syncUsersFromServer envOffline stateAB =
      (Except.error "Offline and no cached users available", stateAB) := by
  constructor
  · exact (syncFromServer_offline_cache_first envOffline stateAB rfl).2.2.1 "p1"
      [cardA, cardB] (by decide)
  · exact (syncFromServer_offline_cache_first envOffline stateAB rfl).2.1 rfl

/-- Claim C2: every mutation call made while offline (`addCardToCollection`;
`updateCardInCollection` and `deleteCardFromCollection` on an entry present
in the local cache) returns without throwing, and immediately upon return
the cached collection for that user contains the created entry under its
temporary id (add), contains the updated entry (update), or no longer
contains the entry (delete); no network attempt is made (remote store and
request log untouched) and one matching operation is appended to the
pending queue. -/
theorem offline_mutations_optimistic (env : SyncEnv) (s : SyncState)
    (userId cardId : String) (quantity : Int) (condition : CardCondition)
    (notes : Option String) (updates : CardUpdates)
    (hoff : env.online = false) :
    (let tempCard := mkTempCard env userId cardId quantity condition notes
     let r := addCardToCollection env s userId cardId quantity condition notes
     r.1 = Except.ok tempCard ∧
     getCachedCollection r.2.localStore userId =
       some (tempCard :: (getCachedCollection s.localStore userId).getD []) ∧
     getPendingChanges r.2.localStore = getPendingChanges s.localStore ++
       [{ id := env.pendingId, type := ChangeType.add, data := tempCard,
          timestamp := env.now }] ∧
     r.2.remoteStore = s.remoteStore ∧ r.2.log = s.log) ∧
    (∀ upd rest,
     updateFirst (fun c => c.id = cardId) (fun c => applyUpdates c updates)
        ((getCachedCollection s.localStore userId).getD []) = some (upd, rest) →
     let r := updateCardInCollection env s userId cardId updates
     r.1 = Except.ok upd ∧
     getCachedCollection r.2.localStore userId = some rest ∧ upd ∈ rest ∧
     getPendingChanges r.2.localStore = getPendingChanges s.localStore ++
       [{ id := env.pendingId, type := ChangeType.update, data := upd,
          timestamp := env.now }] ∧
     r.2.remoteStore = s.remoteStore ∧ r.2.log = s.log) ∧
    (∀ card,
     ((getCachedCollection s.localStore userId).getD []).find?
        (fun c => c.id = cardId) = some card →
     let r := deleteCardFromCollection env s userId cardId
     r.1 = Except.ok () ∧
     getCachedCollection r.2.localStore userId =
       some (((getCachedCollection s.localStore userId).getD []).filter
         (fun c => c.id ≠ cardId)) ∧
     getPendingChanges r.2.localStore = getPendingChanges s.localStore ++
       [{ id := env.pendingId, type := ChangeType.delete, data := card,
          timestamp := env.now }] ∧
     r.2.remoteStore = s.remoteStore ∧ r.2.log = s.log) := by
  refine ⟨?_, ?_, ?_⟩
  · simp [addCardToCollection, hoff, addPendingChange, getPendingChanges,
      getCachedCollection, setCachedCollection, lookupAssoc_assocSet_self]
  · intro upd rest hfound
    simp only [updateCardInCollection, hoff, hfound]
    simp [addPendingChange, getPendingChanges, getCachedCollection,
      setCachedCollection, lookupAssoc_assocSet_self,
      updateFirst_mem _ _ _ _ _ hfound]
  · intro card hfound
    simp only [deleteCardFromCollection, hoff, hfound]
    simp [addPendingChange, getPendingChanges, getCachedCollection,
      setCachedCollection, lookupAssoc_assocSet_self]

/-- Witness for C2: offline delete of cardB from the cached collection
`[cardA, cardB]`. -/
theorem offline_mutations_optimistic_witness :
    (deleteCardFromCollection envOffline stateAB "p1" "c-2").1 = Except.ok () ∧
    getCachedCollection
      (deleteCardFromCollection envOffline stateAB "p1" "c-2").2.localStore "p1" =
      some [cardA] ∧
    getPendingChanges
      (deleteCardFromCollection envOffline stateAB "p1" "c-2").2.localStore =
      [{ id := "pend-1", type := ChangeType.delete, data := cardB, timestamp := 100 }] := by
  have h := (offline_mutations_optimistic envOffline stateAB "p1" "c-2" 1
    CardCondition.nearMint none { quantity := none, condition := none, notes := none }
    rfl).2.2 cardB (by decide)
  refine ⟨h.1, ?_, ?_⟩
  · have h2 := h.2.1
    simpa using h2
  · have h3 := h.2.2.1
    simpa using h3

/-- Counterexample to C3 as stated: while online with the remote unreachable
(every request fails at the transport layer, the archetypal offline/network
failure), `addCardToCollection` does NOT return a value — it rethrows the
error after queueing, so the call result is an error. -/
theorem online_mutation_failure_throws_cex :
    (addCardToCollection envOnlineDown state0 "p1" "base1-4" 1
      CardCondition.nearMint none).1 = Except.error "Failed to fetch" := by
  rfl

/-- Claim C3 amended: for every mutation call made while online whose remote
attempt fails with an offline/network failure, the attempted operation is
appended to the pending queue, but the call PROPAGATES the error to the
caller (it throws) rather than returning a value.  The cache afterwards
holds: for add, the optimistic temp card at the head of the collection; for
update, the optimistically updated list; for delete, the removed entry
re-inserted by appending it to the original (unfiltered) list — the restore
path of the source, not the optimistic removal. -/
theorem online_mutation_failure_queued_and_thrown (env : SyncEnv) (s : SyncState)
    (userId cardId : String) (quantity : Int) (condition : CardCondition)
    (notes : Option String) (updates : CardUpdates) (e : String)
    (hon : env.online = true) :
    (env.remoteEnv.netFail (RemoteRequest.insert (collectionCardToRow
        { userId := userId, cardId := cardId, quantity := quantity,
          condition := condition, notes := notes })) = some e →
     let tempCard := mkTempCard env userId cardId quantity condition notes
     let r := addCardToCollection env s userId cardId quantity condition notes
     r.1 = Except.error e ∧
     getPendingChanges r.2.localStore = getPendingChanges s.localStore ++
       [{ id := env.pendingId, type := ChangeType.add, data := tempCard,
          timestamp := env.now }] ∧
     getCachedCollection r.2.localStore userId =
       some (tempCard :: (getCachedCollection s.localStore userId).getD [])) ∧
    (∀ upd rest,
     updateFirst (fun c => c.id = cardId) (fun c => applyUpdates c updates)
        ((getCachedCollection s.localStore userId).getD []) = some (upd, rest) →
     env.remoteEnv.netFail (RemoteRequest.update (updateDataOf updates) cardId) = some e →
     let r := updateCardInCollection env s userId cardId updates
     r.1 = Except.error e ∧
     getCachedCollection r.2.localStore userId = some rest ∧
     getPendingChanges r.2.localStore = getPendingChanges s.localStore ++
       [{ id := env.pendingId, type := ChangeType.update, data := upd,
          timestamp := env.now }]) ∧
    (∀ card,
     ((getCachedCollection s.localStore userId).getD []).find?
        (fun c => c.id = cardId) = some card →
     env.remoteEnv.netFail (RemoteRequest.delete cardId) = some e →
     let r := deleteCardFromCollection env s userId cardId
     r.1 = Except.error e ∧
     getCachedCollection r.2.localStore userId =
       some ((getCachedCollection s.localStore userId).getD [] ++ [card]) ∧
     getPendingChanges r.2.localStore = getPendingChanges s.localStore ++
       [{ id := env.pendingId, type := ChangeType.delete, data := card,
          timestamp := env.now }]) := by
  refine ⟨?_, ?_, ?_⟩
  · intro hfail
    simp only [addCardToCollection, hon]
    simp only [remoteExec, hfail]
    simp [singleRow, addPendingChange, getPendingChanges, getCachedCollection,
      setCachedCollection, lookupAssoc_assocSet_self]
  · intro upd rest hfound hfail
    simp only [updateCardInCollection, hfound, hon]
    simp only [remoteExec, hfail]
    simp [singleRow, addPendingChange, getPendingChanges, getCachedCollection,
      setCachedCollection, lookupAssoc_assocSet_self]
  · intro card hfound hfail
    simp only [deleteCardFromCollection, hfound, hon]
    simp only [remoteExec, hfail]
    simp [addPendingChange, getPendingChanges, getCachedCollection,
      setCachedCollection, lookupAssoc_assocSet_self]

/-- Witness for the amended C3: online delete of cardB with the remote
unreachable ends in an error result, one queued delete operation, and the
removed entry re-inserted into the cache by the restore path. -/
theorem online_mutation_failure_queued_and_thrown_witness :
    (deleteCardFromCollection envOnlineDown stateAB "p1" "c-2").1 =
      Except.error "Failed to fetch" ∧
    getCachedCollection
      (deleteCardFromCollection envOnlineDown stateAB "p1" "c-2").2.localStore "p1" =
      some [cardA, cardB, cardB] ∧
    getPendingChanges
      (deleteCardFromCollection envOnlineDown stateAB "p1" "c-2").2.localStore =
      [{ id := "pend-1", type := ChangeType.delete, data := cardB, timestamp := 100 }] := by
  have h := (online_mutation_failure_queued_and_thrown envOnlineDown stateAB "p1" "c-2"
    1 CardCondition.nearMint none
    { quantity := none, condition := none, notes := none } "Failed to fetch"
    rfl).2.2 cardB (by decide) rfl
  exact ⟨h.1, by simpa using h.2.1, by simpa using h.2.2⟩

/-- Evaluation of C5 at its failing input: deleting cardB (id c-2) from the
cached collection `[cardA, cardB]` while online with the remote delete
failing.  The code pushes the removed card onto the ORIGINAL, unfiltered
array, so the restored cache is `[cardA, cardB, cardB]` — the entry now
appears twice — instead of the pre-call `[cardA, cardB]`.  The delete
operation is queued and the error rethrown as expected. -/
theorem delete_failure_duplicates_restored_entry :
    getCachedCollection stateAB.localStore "p1" = some [cardA, cardB] ∧
    (deleteCardFromCollection envOnlineDown stateAB "p1" "c-2").1 =
      Except.error "Failed to fetch" ∧
    getCachedCollection
      (deleteCardFromCollection envOnlineDown stateAB "p1" "c-2").2.localStore "p1" =
      some [cardA, cardB, cardB] ∧
    getPendingChanges
      (deleteCardFromCollection envOnlineDown stateAB "p1" "c-2").2.localStore =
      [{ id := "pend-1", type := ChangeType.delete, data := cardB, timestamp := 100 }] := by
  refine ⟨by decide, by rfl, by decide, by decide⟩

/-- Evaluation of C1 at its failing input: an online replay of the queue
`[add tempCard100, delete c-9]` where the insert fails with a network error
and the delete succeeds.  The pass does not abort at the failing first
operation: both requests are issued in insertion order, the delete takes
effect remotely (the store loses row c-9 while the failed insert added
nothing), the WHOLE queue is cleared — losing the failed create — and the
status ends idle, not error.  The claim's "abort at first failure, queue
left intact" behavior does not occur. -/
theorem replay_ignores_failures_and_clears_queue :
    (syncPendingChanges envOnlineInsertDown stateQueue2).1 = Except.ok () ∧
    (syncPendingChanges envOnlineInsertDown stateQueue2).2.log =
      [requestOfChange pendingAdd, requestOfChange pendingDeleteC9] ∧
    (syncPendingChanges envOnlineInsertDown stateQueue2).2.remoteStore.collection_cards
      = [] ∧
    getPendingChanges (syncPendingChanges envOnlineInsertDown stateQueue2).2.localStore
      = [] ∧
    (syncPendingChanges envOnlineInsertDown stateQueue2).2.status = SyncStatus.idle := by
  refine ⟨by rfl, by decide, by decide, by decide, by decide⟩

/-- Counterexample to C4 as stated: replaying the single queued create
succeeds — the Remote Store gains the row under the server id srv-1 and the
queue empties — but the Local Cache Store's collection afterwards still
holds the entry under its temporary id temp-100; the temporary id is NOT
replaced by the server-assigned id during the replay. -/
theorem replay_leaves_temp_id_in_cache_cex :
    (syncPendingChanges envOnlineOk pendingAddOnly).1 = Except.ok () ∧
    ((syncPendingChanges envOnlineOk pendingAddOnly).2.remoteStore.collection_cards.map
      (fun r => r.id)) = ["srv-1"] ∧
    getPendingChanges (syncPendingChanges envOnlineOk pendingAddOnly).2.localStore = [] ∧
    getCachedCollection (syncPendingChanges envOnlineOk pendingAddOnly).2.localStore "p1"
      = some [tempCard100] ∧
    tempCard100.id = "temp-100" := by
  refine ⟨by rfl, by decide, by decide, by decide, by decide⟩

/-- Claim C4 amended: for every create queued while offline under a
temporary id, a successful replay of the one-element queue leaves the Remote
Store containing the created row (under a fresh server-assigned id) and
leaves the pending queue empty, but does not touch the cached collections at
all: the temporary id remains in the Local Cache Store until a later
`syncCollectionFromServer` overwrites that cache wholesale. -/
theorem replay_of_queued_create (env : SyncEnv) (s : SyncState) (c : PendingChange)
    (hon : env.online = true)
    (hq : getPendingChanges s.localStore = [c])
    (hty : c.type = ChangeType.add)
    (hqty : 0 < c.data.quantity)
    (hnet : env.remoteEnv.netFail (requestOfChange c) = none) :
    (syncPendingChanges env s).1 = Except.ok () ∧
    (syncPendingChanges env s).2.remoteStore.collection_cards =
      s.remoteStore.collection_cards ++
        [mkInsertedRow
          (collectionCardToRow
            { userId := c.data.userId, cardId := c.data.cardId,
              quantity := c.data.quantity, condition := c.data.condition,
              notes := c.data.notes })
          (env.remoteEnv.newIds (collectionCardToRow
            { userId := c.data.userId, cardId := c.data.cardId,
              quantity := c.data.quantity, condition := c.data.condition,
              notes := c.data.notes }))
          env.remoteEnv.serverNow] ∧
    getPendingChanges (syncPendingChanges env s).2.localStore = [] ∧
    (syncPendingChanges env s).2.localStore.collections = s.localStore.collections := by
  have hreq : requestOfChange c = RemoteRequest.insert (collectionCardToRow
      { userId := c.data.userId, cardId := c.data.cardId,
        quantity := c.data.quantity, condition := c.data.condition,
        notes := c.data.notes }) := by
    simp [requestOfChange, hty]
  rw [hreq] at hnet
  have hqty2 : ¬((collectionCardToRow
      { userId := c.data.userId, cardId := c.data.cardId,
        quantity := c.data.quantity, condition := c.data.condition,
        notes := c.data.notes }).quantity ≤ 0) := by
    simp [collectionCardToRow]
    omega
  simp only [syncPendingChanges, hon, hq]
  simp only [replayAll, hreq]
  simp only [remoteExec, hnet]
  simp [hqty2, clearPendingChanges, getPendingChanges]

/-- Witness for the amended C4 at the concrete one-element queue. -/
theorem replay_of_queued_create_witness :
    (syncPendingChanges envOnlineOk pendingAddOnly).1 = Except.ok () ∧
    getPendingChanges (syncPendingChanges envOnlineOk pendingAddOnly).2.localStore = [] ∧
    (syncPendingChanges envOnlineOk pendingAddOnly).2.localStore.collections =
      pendingAddOnly.localStore.collections := by
  have h := replay_of_queued_create envOnlineOk pendingAddOnly pendingAdd
    rfl (by decide) rfl (by decide) rfl
  exact ⟨h.1, h.2.2.1, h.2.2.2⟩

/-- Counterexample to C7 as stated: an online `addCardToCollection` with
quantity 0 is not rejected before reaching the Remote Store — the insert
request carrying quantity 0 IS issued (it appears in the request log); the
rejection happens at the remote store itself, via the schema's
`CHECK (quantity > 0)`, whose error the call then propagates. -/
theorem quantity_zero_reaches_remote_cex :
    (addCardToCollection envOnlineOk state0 "p1" "base1-4" 0
      CardCondition.nearMint none).2.log = [RemoteRequest.insert insertRowQ0] ∧
    (addCardToCollection envOnlineOk state0 "p1" "base1-4" 0
      CardCondition.nearMint none).1 =
      Except.error "new row for relation collection_cards violates check constraint" ∧
    (addCardToCollection envOnlineOk state0 "p1" "base1-4" 0
      CardCondition.nearMint none).2.remoteStore = emptyRemote := by
  refine ⟨by decide, by rfl, by decide⟩

/-- Claim C7 amended: `addCardToCollection` and `updateCardInCollection`
perform no client-side quantity validation.  A call with quantity ≤ 0 made
offline is accepted outright (cached and queued); made online, the
insert/update request carrying the non-positive quantity is issued to the
Remote Store, and only the store's `CHECK (quantity > 0)` constraint rejects
it (leaving the remote unchanged and propagating the error). -/
theorem quantity_nonpositive_not_rejected_client_side (env : SyncEnv) (s : SyncState)
    (userId cardId : String) (q : Int) (condition : CardCondition)
    (notes : Option String) (updates : CardUpdates)
    (hq : q ≤ 0) :
    (env.online = false →
      let tempCard := mkTempCard env userId cardId q condition notes
      let r := addCardToCollection env s userId cardId q condition notes
      r.1 = Except.ok tempCard ∧
      getCachedCollection r.2.localStore userId =
        some (tempCard :: (getCachedCollection s.localStore userId).getD [])) ∧
    (env.online = true →
      env.remoteEnv.netFail (RemoteRequest.insert (collectionCardToRow
        { userId := userId, cardId := cardId, quantity := q,
          condition := condition, notes := notes })) = none →
      let r := addCardToCollection env s userId cardId q condition notes
      r.2.log = s.log ++ [RemoteRequest.insert (collectionCardToRow
        { userId := userId, cardId := cardId, quantity := q,
          condition := condition, notes := notes })] ∧
      r.1 = Except.error
        "new row for relation collection_cards violates check constraint" ∧
      r.2.remoteStore = s.remoteStore) ∧
    (env.online = true →
      updates.quantity = some q →
      ∀ upd rest,
      updateFirst (fun c => c.id = cardId) (fun c => applyUpdates c updates)
          ((getCachedCollection s.localStore userId).getD []) = some (upd, rest) →
      env.remoteEnv.netFail (RemoteRequest.update (updateDataOf updates) cardId) = none →
      s.remoteStore.collection_cards.any (fun row => row.id = cardId) = true →
      let r := updateCardInCollection env s userId cardId updates
      r.2.log = s.log ++ [RemoteRequest.update (updateDataOf updates) cardId] ∧
      r.1 = Except.error
        "new row for relation collection_cards violates check constraint" ∧
      r.2.remoteStore = s.remoteStore) := by
  refine ⟨?_, ?_, ?_⟩
  · intro hoff
    simp [addCardToCollection, hoff, getCachedCollection, setCachedCollection,
      addPendingChange, lookupAssoc_assocSet_self]
  · intro hon hnet
    have hq2 : (collectionCardToRow
        { userId := userId, cardId := cardId, quantity := q,
          condition := condition, notes := notes }).quantity ≤ 0 := by
      simpa [collectionCardToRow] using hq
    simp only [addCardToCollection, hon]
    simp only [remoteExec, hnet]
    simp [hq2, singleRow]
  · intro hon hquq upd rest hfound hnet hany
    have hmem : ∃ row ∈ s.remoteStore.collection_cards, row.id = cardId := by
      simpa using List.any_eq_true.mp hany
    obtain ⟨row0, hrow0, hrowid⟩ := hmem
    have hconstraint : (s.remoteStore.collection_cards.filter
        (fun r2 => r2.id = cardId)).any
        (fun r2 => (applyUpdateRow (updateDataOf updates)
          env.remoteEnv.serverNow r2).quantity ≤ 0) = true := by
      rw [List.any_eq_true]
      refine ⟨row0, ?_, ?_⟩
      · simp [List.mem_filter, hrow0, hrowid]
      · simp only [applyUpdateRow, updateDataOf, hquq, Option.getD_some]
        simpa using hq
    simp only [updateCardInCollection, hfound, hon]
    simp only [remoteExec, hnet]
    simp [hconstraint, singleRow]

/-- Witness for the amended C7: an online add with quantity 0 issues the
insert and is rejected only remotely. -/
theorem quantity_nonpositive_not_rejected_client_side_witness :
    (addCardToCollection envOnlineOk state0 "p1" "base1-4" 0
      CardCondition.nearMint none).2.log =
      [RemoteRequest.insert (collectionCardToRow
        { userId := "p1", cardId := "base1-4", quantity := 0,
          condition := CardCondition.nearMint, notes := none })] ∧
    (addCardToCollection envOnlineOk state0 "p1" "base1-4" 0
      CardCondition.nearMint none).2.remoteStore = state0.remoteStore := by
  have h := (quantity_nonpositive_not_rejected_client_side envOnlineOk state0 "p1"
    "base1-4" 0 CardCondition.nearMint none
    { quantity := none, condition := none, notes := none } (by decide)).2.1 rfl rfl
  exact ⟨by simpa using h.1, h.2.2⟩

/-- Claim C10: every online `updateCardInCollection` call on an entry
present in the cache whose `updates` object omits `notes` (or passes the
empty string) sends a row update whose `notes` field is an explicit SQL
null — the request is issued with `notes := none`, and applying it to any
remote row leaves that row with no note.  A field not named in the update
request is thus not left unchanged on the remote row. -/
theorem update_without_notes_nulls_remote_notes (env : SyncEnv) (s : SyncState)
    (userId cardId : String) (updates : CardUpdates) (upd : CollectionCard)
    (rest : List CollectionCard)
    (hon : env.online = true)
    (hfound : updateFirst (fun c => c.id = cardId) (fun c => applyUpdates c updates)
        ((getCachedCollection s.localStore userId).getD []) = some (upd, rest))
    (hnotes : updates.notes = none ∨ updates.notes = some "") :
    (updateCardInCollection env s userId cardId updates).2.log =
      s.log ++ [RemoteRequest.update (updateDataOf updates) cardId] ∧
    (updateDataOf updates).notes = none ∧
    (∀ (row : CollectionCardRow) (srvNow : String),
      (applyUpdateRow (updateDataOf updates) srvNow row).notes = none) := by
  have hnull : jsOrNull updates.notes = none := by
    rcases hnotes with h | h <;> simp [jsOrNull, h]
  refine ⟨?_, ?_, ?_⟩
  · simp only [updateCardInCollection, hfound, hon]
    rcases hre : remoteExec env.remoteEnv s.remoteStore
        (RemoteRequest.update (updateDataOf updates) cardId) with ⟨err, rows, remote2⟩
    simp only [hre]
    rcases hsr : singleRow err rows with e | row
    · simp [hsr]
    · simp only [hsr]
      split
      · simp_all
      · split <;> simp
  · simp [updateDataOf, hnull]
  · intro row srvNow
    simp [applyUpdateRow, updateDataOf, hnull]

/-- Witness for C10: an online quantity-only update of cardB (which carries
the note "shiny") issues an update request whose notes field is null. -/
theorem update_without_notes_nulls_remote_notes_witness :
    (updateCardInCollection envOnlineOk stateAB "p1" "c-2"
      { quantity := some 3, condition := none, notes := none }).2.log =
      [RemoteRequest.update
        (updateDataOf { quantity := some 3, condition := none, notes := none }) "c-2"] ∧
    (updateDataOf
      { quantity := some 3, condition := none, notes := none }).notes = none := by
  have h := update_without_notes_nulls_remote_notes envOnlineOk stateAB "p1" "c-2"
    { quantity := some 3, condition := none, notes := none }
    (applyUpdates cardB { quantity := some 3, condition := none, notes := none })
    [cardA, applyUpdates cardB { quantity := some 3, condition := none, notes := none }]
    rfl (by decide) (Or.inl rfl)
  exact ⟨by simpa using h.1, h.2.1⟩
